import Mathlib

/-!
# AdventureMap.js: the map component's state, handlers and effect

A shallow embedding of `src/AdventureMap.js`.  The component keeps four pieces of local
state (`viewport`, `circleInfo`, `popupInfo`, `drivetime`), reads the Redux store
(`store.adventures`, `store.users`) and talks to its surroundings through calls
(`dispatch`, `history.push`, `setCoords`, `getAdventureSlug`, `drivetimeMapCalc`).

Every handler is a function from the state before it runs to an `Outcome`: the state after
it, the calls it made in order, and whether it was cut short by a `TypeError` raised at a
property access on `undefined`.

The helpers imported from `./utils/helpers` and `./actions/adventuresActions` are not part
of the file; they and the built-in `parseFloat` are parameters (`Helpers`), taken to be
total functions.
-/

namespace AdventureMap

/-! ## Data model -/

/-- JavaScript numbers as far as the component stores them: `NaN` or a finite value. -/
inductive JSNum
  | nan
  | fin (q : ℚ)
deriving DecidableEq

/-- Adventure identifiers: the non-negative integer ids that key `store.adventures` and
that `Markers` hands to `clickHandler`.  As a JavaScript number an identifier is truthy
exactly when it is not `0`. -/
abbrev Ident := Nat

/-- JavaScript truthiness of an identifier (a number): everything but `0`. -/
def truthy (e : Ident) : Bool := e != 0

/-- An adventure record, with the two properties the component reads.  `rating` is a finite
number (on finite numbers JavaScript's `>` is the usual order); `starting_location` is a
string, or `none` when the property is `undefined`. -/
structure Adventure where
  rating : ℚ
  starting_location : Option String
deriving DecidableEq

/-- The mapping `store.adventures`, as its entries in property enumeration order (the order
of `Object.values`). -/
abbrev Adventures := List (Ident × Adventure)

/-- The values `Object.values(adventuresObj)`. -/
def objectValues (adventuresObj : Adventures) : List Adventure :=
  adventuresObj.map Prod.snd

/-- The property read `adventuresObj[e]`; `none` is `undefined`. -/
def getAdventure (adventuresObj : Adventures) (e : Ident) : Option Adventure :=
  adventuresObj.lookup e

/-- A viewport object (also the shape of the `coords` prop), with the three properties the
component reads; whatever else the map widget keeps in it is passed along unread and is
left out.  A field is `none` when the object has no such property. -/
structure Viewport where
  latitude : Option JSNum
  longitude : Option JSNum
  zoom : Option JSNum
deriving DecidableEq

/-- The viewport has a latitude, a longitude and a zoom. -/
def Viewport.complete (v : Viewport) : Bool :=
  v.latitude.isSome && v.longitude.isSome && v.zoom.isSome

/-- The object kept in `circleInfo`. -/
structure Circle (Val : Type) where
  latitude : Option JSNum
  longitude : Option JSNum
  radius : Val
deriving DecidableEq

/-- The Redux store as read by the two `useSelector` calls.  `location` is `none` when
`user.location` is falsy. -/
structure Store (Val : Type) where
  adventures : Adventures
  location : Option Val

/-- The props the logic depends on.  `getAdventureSlug` records whether the optional
callback was passed; `setCoords` is always passed. -/
structure Props where
  coords : Viewport
  urlParam : String
  getAdventureSlug : Bool

/-- The four `useState` cells.  `popupInfo = none` and `drivetime = none` and
`circleInfo = none` stand for `null`. -/
structure State (Val : Type) where
  viewport : Viewport
  circleInfo : Option (Circle Val)
  popupInfo : Option Ident
  drivetime : Option Val
deriving DecidableEq

/-- The calls the component makes on its surroundings. -/
inductive Call (Val : Type)
  | drivetimeMapCalc (origin : Val) (destination : Val)
  | setCoords (c : Viewport)
  | dispatch (action : Val)
  | historyPush (path : String)
  | getAdventureSlug (e : Ident)
deriving DecidableEq

/-- The imported helpers and `parseFloat`, which are not defined in the file.  An argument
of type `Option _` is `none` when the JavaScript argument is `undefined`. -/
structure Helpers (Val : Type) where
  convertCoords : Option String → Val
  radiusCalc : Option JSNum → Val
  searchAdventuresByMap : Option JSNum → Option JSNum → Option JSNum → Val
  parseFloat : Option String → JSNum

/-- What running a handler or the effect leaves behind. -/
structure Outcome (Val : Type) where
  state : State Val
  calls : List (Call Val)
  threw : Bool
deriving DecidableEq

variable {Val : Type}

/-- State on mount: `useState(coords)`, `useState(null)` three times. -/
def init (P : Props) : State Val :=
  { viewport := P.coords, circleInfo := none, popupInfo := none, drivetime := none }

/-! ## The effect (lines 42-74) -/

/-- The first `if` of the effect (lines 44-51).  `none` is the `TypeError` of reading
`.starting_location` of `undefined`; otherwise the list of lookups started. -/
def drivetimeBlock (H : Helpers Val) (S : Store Val) (st : State Val) :
    Option (List (Call Val)) :=
  match S.location, st.popupInfo with
  | some loc, some e =>
    if truthy e then
      match getAdventure S.adventures e with
      | none => none
      | some adv => some [Call.drivetimeMapCalc (H.convertCoords adv.starting_location) loc]
    else some []
  | _, _ => some []

/-- The `reduce` of lines 57-61, from position `idx` on: `rest` is what remains of the
array, `accum` the accumulator.  `none` is the `TypeError` of reading `.rating` of
`undefined`. -/
def reduceFrom (values : List Adventure) : List Adventure → Nat → Nat → Option Nat
  | [], _, accum => some accum
  | current :: rest, idx, accum =>
    match values[accum]? with
    | none => none
    | some best => reduceFrom values rest (idx + 1) (if current.rating > best.rating then idx else accum)

/-- The index computed by `Object.values(adventuresObj).reduce(..., 0)`. -/
def bestIndex (values : List Adventure) : Option Nat :=
  reduceFrom values values 0 0

/-- Pieces of a character list between commas. -/
def splitComma : List Char → List (List Char)
  | [] => [[]]
  | c :: cs =>
    if c = ',' then [] :: splitComma cs
    else
      match splitComma cs with
      | [] => [[c]]
      | piece :: pieces => (c :: piece) :: pieces

/-- The array `s.split(",")`. -/
def split (s : String) : List String :=
  (splitComma s.data).map String.mk

/-- The object passed to `setCoords` and `setViewport` for a starting location. -/
def centreOn (H : Helpers Val) (startingLocation : String) : Viewport :=
  let latLonArrToCenter := split startingLocation
  { latitude := some (H.parseFloat latLonArrToCenter[0]?)
    longitude := some (H.parseFloat latLonArrToCenter[1]?)
    zoom := some (JSNum.fin 6) }

/-- How the second `if` of the effect ends. -/
inductive Recentre
  | skip
  | fail
  | centre (v : Viewport)
deriving DecidableEq

/-- The second `if` of the effect (lines 54-73). -/
def recentre (H : Helpers Val) (urlParam : String) (adventuresObj : Adventures) : Recentre :=
  let values := objectValues adventuresObj
  if values.length > 0 ∧ urlParam = "?search" then
    match bestIndex values with
    | none => Recentre.fail
    | some i =>
      match values[i]? with
      | none => Recentre.fail
      | some adv =>
        match adv.starting_location with
        | none => Recentre.fail
        | some s => Recentre.centre (centreOn H s)
  else Recentre.skip

/-- The callback of `useEffect`. -/
def effect (H : Helpers Val) (P : Props) (S : Store Val) (st : State Val) : Outcome Val :=
  match drivetimeBlock H S st with
  | none => { state := st, calls := [], threw := true }
  | some lookups =>
    match recentre H P.urlParam S.adventures with
    | Recentre.skip => { state := st, calls := lookups, threw := false }
    | Recentre.fail => { state := st, calls := lookups, threw := true }
    | Recentre.centre v =>
      { state := { st with viewport := v }, calls := lookups ++ [Call.setCoords v], threw := false }

/-- The `.then` callback of line 48: the lookup resolved with `res`. -/
def drivetimeArrived (res : Val) (st : State Val) : State Val :=
  { st with drivetime := some res }

/-! ## The handlers -/

/-- Lines 78-83. -/
def clickHandler (P : Props) (e : Ident) (st : State Val) : Outcome Val :=
  { state := { st with popupInfo := some e }
    calls := if P.getAdventureSlug then [Call.getAdventureSlug e] else []
    threw := false }

/-- Lines 85-98. -/
def handleSearchByMap (H : Helpers Val) (st : State Val) : Outcome Val :=
  { state :=
      { st with
        circleInfo := some
          { latitude := st.viewport.latitude
            longitude := st.viewport.longitude
            radius := H.radiusCalc st.viewport.zoom } }
    calls :=
      [Call.dispatch
        (H.searchAdventuresByMap st.viewport.latitude st.viewport.longitude st.viewport.zoom)]
    threw := false }

/-- Lines 153-159. -/
def onViewportChange (P : Props) (viewport : Viewport) (st : State Val) : Outcome Val :=
  { state := { st with viewport := viewport }
    calls := if P.urlParam = "?search" ∨ P.urlParam = "?all" then [Call.historyPush "/adventures"] else []
    threw := false }

/-- The props of the rendered `MapCard`. -/
structure MapCardProps (Val : Type) where
  drivetime : Option Val
  adventure : Option Adventure
deriving DecidableEq

/-- The arguments of the `circle(...)` call that feeds the rendered `Source`: the centre
`[longitude, latitude]` and the radius. -/
structure RadiusSource (Val : Type) where
  longitude : Option JSNum
  latitude : Option JSNum
  radius : Val
deriving DecidableEq

/-- The state-dependent children of `ReactMapGL` (lines 147-213). -/
structure View (Val : Type) where
  viewport : Viewport
  mapCard : Option (MapCardProps Val)
  radius : Option (RadiusSource Val)
deriving DecidableEq

/-- The render output: `popupInfo && <MapCard .../>` and `circleInfo ? <Source .../> : null`. -/
def render (S : Store Val) (st : State Val) : View Val :=
  { viewport := st.viewport
    mapCard :=
      match st.popupInfo with
      | none => none
      | some e =>
        if truthy e then
          some { drivetime := st.drivetime, adventure := getAdventure S.adventures e }
        else none
    radius :=
      match st.circleInfo with
      | none => none
      | some c => some { longitude := c.longitude, latitude := c.latitude, radius := c.radius } }

/-! ## Re-rendering and traces -/

/-- The operations that change the component's state. -/
inductive Op (Val : Type)
  | viewportChange (v : Viewport)
  | searchThisArea
  | markerClick (e : Ident)
  | runEffect
  | drivetimeResult (res : Val)
  | setPopupInfo (p : Option Ident)

/-- One operation, with the props and the store in force when it happens. -/
structure Event (Val : Type) where
  props : Props
  store : Store Val
  op : Op Val

/-- The state after one event. -/
def step (H : Helpers Val) (ev : Event Val) (st : State Val) : State Val :=
  match ev.op with
  | Op.viewportChange v => (onViewportChange ev.props v st).state
  | Op.searchThisArea => (handleSearchByMap H st).state
  | Op.markerClick e => (clickHandler ev.props e st).state
  | Op.runEffect => (effect H ev.props ev.store st).state
  | Op.drivetimeResult res => drivetimeArrived res st
  | Op.setPopupInfo p => { st with popupInfo := p }

/-- The state after a sequence of events, oldest first. -/
def run (H : Helpers Val) : List (Event Val) → State Val → State Val
  | [], st => st
  | ev :: evs, st => run H evs (step H ev st)

/-! ## A concrete instance of the helpers -/

/-- Results of the helpers kept as unevaluated terms, with user locations and lookup
results as tagged constants. -/
inductive Term
  | convertCoords (startingLocation : Option String)
  | radiusCalc (zoom : Option JSNum)
  | searchAdventuresByMap (latitude longitude zoom : Option JSNum)
  | location (name : String)
  | minutes (n : Nat)
deriving DecidableEq

/-- Value of a run of decimal digits read after `acc`; `none` if some character is not a
digit. -/
def readDigits : List Char → Nat → Option Nat
  | [], acc => some acc
  | c :: cs, acc => if c.isDigit then readDigits cs (10 * acc + (c.toNat - 48)) else none

/-- A reading of decimal integers: an optional `-` followed by one or more digits gives
that integer, everything else (and `undefined`) gives `NaN`.  On such strings of up to
fifteen digits it agrees with `parseFloat`; it stands in for `parseFloat` in the worked
examples only. -/
def parseInteger : Option String → JSNum
  | none => JSNum.nan
  | some s =>
    match s.data with
    | [] => JSNum.nan
    | '-' :: [] => JSNum.nan
    | '-' :: ds =>
      match readDigits ds 0 with
      | some n => JSNum.fin (-(n : ℚ))
      | none => JSNum.nan
    | ds =>
      match readDigits ds 0 with
      | some n => JSNum.fin (n : ℚ)
      | none => JSNum.nan

/-- The helpers left symbolic, with `parseInteger` for `parseFloat`. -/
def symbolicHelpers : Helpers Term :=
  { convertCoords := Term.convertCoords
    radiusCalc := Term.radiusCalc
    searchAdventuresByMap := Term.searchAdventuresByMap
    parseFloat := parseInteger }

/-! ## Predicates used in the statements -/

/-- Adventure `top`, at position `i` of the values, is the first adventure of highest
rating: no adventure has a greater rating and every adventure before position `i` has a
smaller one. -/
def FirstHighest (values : List Adventure) (i : Nat) (top : Adventure) : Prop :=
  values[i]? = some top ∧ (∀ a ∈ values, a.rating ≤ top.rating) ∧
    (∀ a ∈ values.take i, a.rating < top.rating)

instance (values : List Adventure) (i : Nat) (top : Adventure) :
    Decidable (FirstHighest values i top) := by
  unfold FirstHighest
  infer_instance

/-- The call is a drive-time lookup. -/
def isLookup : Call Val → Bool
  | Call.drivetimeMapCalc _ _ => true
  | _ => false

/-- Invariant of the `reduce`: started at position `idx` with an accumulator that is the
first position of highest rating among the positions before `idx`, it returns the first
position of highest rating of the whole array, and never reads past the array. -/
theorem reduceFrom_first_max (values : List Adventure) :
    ∀ (rest : List Adventure) (idx accum : Nat) (best : Adventure),
      values.drop idx = rest →
      values[accum]? = some best →
      (∀ (j : Nat) (a : Adventure), j < idx → values[j]? = some a → a.rating ≤ best.rating) →
      (∀ (j : Nat) (a : Adventure), j < accum → values[j]? = some a → a.rating < best.rating) →
      ∃ i top, reduceFrom values rest idx accum = some i ∧ values[i]? = some top ∧
        (∀ (j : Nat) (a : Adventure), values[j]? = some a → a.rating ≤ top.rating) ∧
        (∀ (j : Nat) (a : Adventure), j < i → values[j]? = some a → a.rating < top.rating) := by
  intro rest
  induction rest with
  | nil =>
    intro idx accum best hdrop hbest hle hlt
    refine ⟨accum, best, rfl, hbest, ?_, hlt⟩
    intro j a hj
    have hlen : values.length ≤ idx := List.drop_eq_nil_iff.mp hdrop
    have hjlt : j < values.length := (List.getElem?_eq_some.mp hj).1
    exact hle j a (lt_of_lt_of_le hjlt hlen) hj
  | cons current rest ih =>
    intro idx accum best hdrop hbest hle hlt
    have hcur : values[idx]? = some current := by
      have h := List.head?_drop values idx
      rw [hdrop] at h
      simpa using h.symm
    have hrest : values.drop (idx + 1) = rest := by
      have h := List.tail_drop values idx
      rw [hdrop] at h
      simpa using h.symm
    simp only [reduceFrom, hbest]
    by_cases hgt : current.rating > best.rating
    · simp only [hgt, if_true]
      apply ih (idx + 1) idx current hrest hcur
      · intro j a hj hja
        rcases Nat.lt_succ_iff_lt_or_eq.mp hj with h | h
        · exact le_of_lt (lt_of_le_of_lt (hle j a h hja) hgt)
        · subst h
          rw [hcur] at hja
          cases hja
          exact le_refl _
      · intro j a hj hja
        exact lt_of_le_of_lt (hle j a hj hja) hgt
    · simp only [hgt, if_false]
      apply ih (idx + 1) accum best hrest hbest
      · intro j a hj hja
        rcases Nat.lt_succ_iff_lt_or_eq.mp hj with h | h
        · exact hle j a h hja
        · subst h
          rw [hcur] at hja
          cases hja
          exact not_lt.mp hgt
      · exact hlt

/-- On a non-empty array the `reduce` returns a position of the array, the adventure there
has a rating no adventure exceeds, and every adventure before it has a strictly smaller
rating. -/
theorem bestIndex_first_max (values : List Adventure) (hne : values ≠ []) :
    ∃ i top, bestIndex values = some i ∧ values[i]? = some top ∧
      (∀ (j : Nat) (a : Adventure), values[j]? = some a → a.rating ≤ top.rating) ∧
      (∀ (j : Nat) (a : Adventure), j < i → values[j]? = some a → a.rating < top.rating) := by
  cases values with
  | nil => exact absurd rfl hne
  | cons first others =>
    apply reduceFrom_first_max (first :: others) (first :: others) 0 0 first rfl (by simp)
    · intro j a hj
      exact absurd hj (Nat.not_lt_zero j)
    · intro j a hj
      exact absurd hj (Nat.not_lt_zero j)

/-- The `reduce` returns the position of the first adventure of highest rating. -/
theorem bestIndex_firstHighest (values : List Adventure) (hne : values ≠ []) :
    ∃ i top, bestIndex values = some i ∧ FirstHighest values i top := by
  obtain ⟨i, top, hbest, htop, hmax, hfirst⟩ := bestIndex_first_max values hne
  refine ⟨i, top, hbest, htop, ?_, ?_⟩
  · intro a ha
    obtain ⟨j, hj⟩ := List.mem_iff_getElem?.mp ha
    exact hmax j a hj
  · intro a ha
    obtain ⟨j, hj⟩ := List.mem_iff_getElem?.mp ha
    rw [List.getElem?_take] at hj
    split at hj
    · rename_i hlt
      exact hfirst j a hlt hj
    · cases hj

/-- Outside a search, or with no adventures, the second `if` is skipped. -/
theorem recentre_skip (H : Helpers Val) (urlParam : String) (adventuresObj : Adventures)
    (h : ¬ (adventuresObj ≠ [] ∧ urlParam = "?search")) :
    recentre H urlParam adventuresObj = Recentre.skip := by
  unfold recentre
  simp only
  rw [if_neg]
  intro hc
  apply h
  refine ⟨?_, hc.2⟩
  intro hnil
  rw [hnil] at hc
  exact absurd hc.1 (by simp [objectValues])

/-- After a search with results, the second `if` looks at the first adventure of highest
rating: it fails when that adventure has no starting location and otherwise centres on
it. -/
theorem recentre_search (H : Helpers Val) (urlParam : String) (adventuresObj : Adventures)
    (hne : adventuresObj ≠ []) (hurl : urlParam = "?search") :
    ∃ i top, bestIndex (objectValues adventuresObj) = some i ∧
      FirstHighest (objectValues adventuresObj) i top ∧
      recentre H urlParam adventuresObj =
        (match top.starting_location with
          | none => Recentre.fail
          | some s => Recentre.centre (centreOn H s)) := by
  have hvals : objectValues adventuresObj ≠ [] := by
    intro h
    apply hne
    simpa [objectValues] using h
  obtain ⟨i, top, hbest, hfirst⟩ := bestIndex_firstHighest (objectValues adventuresObj) hvals
  refine ⟨i, top, hbest, hfirst, ?_⟩
  have hlen : (objectValues adventuresObj).length > 0 := List.length_pos.mpr hvals
  unfold recentre
  simp only
  rw [if_pos ⟨hlen, hurl⟩, hbest]
  simp only
  rw [hfirst.1]

/-- The second `if` centres only on a centre built from a starting location. -/
theorem recentre_centre (H : Helpers Val) (urlParam : String) (adventuresObj : Adventures)
    (v : Viewport) (h : recentre H urlParam adventuresObj = Recentre.centre v) :
    ∃ s, v = centreOn H s := by
  by_cases hc : adventuresObj ≠ [] ∧ urlParam = "?search"
  · obtain ⟨i, top, _, _, hrec⟩ := recentre_search H urlParam adventuresObj hc.1 hc.2
    rw [hrec] at h
    cases hs : top.starting_location with
    | none => rw [hs] at h; cases h
    | some s =>
      rw [hs] at h
      refine ⟨s, ?_⟩
      cases h
      rfl
  · rw [recentre_skip H urlParam adventuresObj hc] at h
    cases h

/-- The effect either leaves the state alone or replaces the viewport by the centre built
from some starting location; nothing else changes. -/
theorem effect_state_cases (H : Helpers Val) (P : Props) (S : Store Val) (st : State Val) :
    (effect H P S st).state = st ∨
      ∃ s, (effect H P S st).state = { st with viewport := centreOn H s } := by
  unfold effect
  cases drivetimeBlock H S st with
  | none => exact Or.inl rfl
  | some lookups =>
    simp only
    cases hrec : recentre H P.urlParam S.adventures with
    | skip => exact Or.inl rfl
    | fail => exact Or.inl rfl
    | centre v =>
      obtain ⟨s, hs⟩ := recentre_centre H P.urlParam S.adventures v hrec
      subst hs
      exact Or.inr ⟨s, rfl⟩

/-- The centre built from a starting location has a latitude, a longitude and a zoom. -/
theorem centreOn_complete (H : Helpers Val) (s : String) : (centreOn H s).complete = true :=
  rfl

/-- One event keeps the viewport complete, provided a viewport change brings a complete
viewport. -/
theorem step_complete (H : Helpers Val) (ev : Event Val) (st : State Val)
    (hst : st.viewport.complete = true)
    (hev : ∀ v, ev.op = Op.viewportChange v → v.complete = true) :
    (step H ev st).viewport.complete = true := by
  unfold step
  cases hop : ev.op with
  | viewportChange v => exact hev v hop
  | searchThisArea => exact hst
  | markerClick e => exact hst
  | runEffect =>
    simp only
    rcases effect_state_cases H ev.props ev.store st with h | ⟨s, h⟩
    · rw [h]; exact hst
    · rw [h]; exact centreOn_complete H s
  | drivetimeResult res => exact hst
  | setPopupInfo p => exact hst

/-! ## The calls of the effect -/

/-- With a user location, a truthy popup reference and the popup's adventure in the
mapping, the first `if` starts one lookup. -/
theorem drivetimeBlock_lookup (H : Helpers Val) (S : Store Val) (st : State Val) (loc : Val)
    (e : Ident) (adv : Adventure) (hloc : S.location = some loc)
    (hpop : st.popupInfo = some e) (htruthy : truthy e = true)
    (hkey : getAdventure S.adventures e = some adv) :
    drivetimeBlock H S st =
      some [Call.drivetimeMapCalc (H.convertCoords adv.starting_location) loc] := by
  simp [drivetimeBlock, hloc, hpop, htruthy, hkey]

/-- Whatever the first `if` starts is a single lookup, for a known location, a truthy popup
reference and an adventure of the mapping. -/
theorem drivetimeBlock_some (H : Helpers Val) (S : Store Val) (st : State Val)
    (lookups : List (Call Val)) (h : drivetimeBlock H S st = some lookups) :
    lookups = [] ∨
      ∃ loc e adv, S.location = some loc ∧ st.popupInfo = some e ∧ truthy e = true ∧
        getAdventure S.adventures e = some adv ∧
        lookups = [Call.drivetimeMapCalc (H.convertCoords adv.starting_location) loc] := by
  unfold drivetimeBlock at h
  cases hloc : S.location with
  | none =>
    rw [hloc] at h
    simp at h
    exact Or.inl h
  | some loc =>
    cases hpop : st.popupInfo with
    | none =>
      rw [hloc, hpop] at h
      simp at h
      exact Or.inl h
    | some e =>
      rw [hloc, hpop] at h
      simp only at h
      by_cases htruthy : truthy e = true
      · rw [if_pos htruthy] at h
        cases hkey : getAdventure S.adventures e with
        | none => rw [hkey] at h; cases h
        | some adv =>
          rw [hkey] at h
          simp at h
          exact Or.inr ⟨loc, e, adv, rfl, rfl, htruthy, hkey, h.symm⟩
      · rw [if_neg htruthy] at h
        simp at h
        exact Or.inl h

/-- When the first `if` fails the effect makes no call and changes nothing. -/
theorem effect_of_drivetime_fail (H : Helpers Val) (P : Props) (S : Store Val)
    (st : State Val) (h : drivetimeBlock H S st = none) :
    effect H P S st = { state := st, calls := [], threw := true } := by
  simp [effect, h]

/-- The calls of the effect are the lookups of the first `if`, followed by at most one
`setCoords`. -/
theorem effect_calls (H : Helpers Val) (P : Props) (S : Store Val) (st : State Val)
    (lookups : List (Call Val)) (h : drivetimeBlock H S st = some lookups) :
    (effect H P S st).calls = lookups ∨
      ∃ v, (effect H P S st).calls = lookups ++ [Call.setCoords v] := by
  unfold effect
  rw [h]
  simp only
  cases recentre H P.urlParam S.adventures with
  | skip => exact Or.inl rfl
  | fail => exact Or.inl rfl
  | centre v => exact Or.inr ⟨v, rfl⟩

/-- The lookups among the calls of the effect are those of the first `if`. -/
theorem effect_lookups (H : Helpers Val) (P : Props) (S : Store Val) (st : State Val)
    (lookups : List (Call Val)) (h : drivetimeBlock H S st = some lookups) :
    (effect H P S st).calls.filter isLookup = lookups.filter isLookup := by
  rcases effect_calls H P S st lookups h with hc | ⟨v, hc⟩
  · rw [hc]
  · rw [hc]
    simp [isLookup]

/-- C2: for every viewport state, `handleSearchByMap` makes exactly one call, the dispatch
of the `searchAdventuresByMap` action built from the viewport's latitude, longitude and
zoom; it sets the circle overlay to that latitude and longitude with radius
`radiusCalc(zoom)`, so that the next render draws the overlay with that centre and radius;
the viewport and the popup are unchanged. -/
theorem handleSearchByMap_dispatches_and_draws (H : Helpers Val) (S : Store Val)
    (st : State Val) :
    (handleSearchByMap H st).calls =
        [Call.dispatch
          (H.searchAdventuresByMap st.viewport.latitude st.viewport.longitude st.viewport.zoom)]
      ∧ (handleSearchByMap H st).state.circleInfo =
        some ⟨st.viewport.latitude, st.viewport.longitude, H.radiusCalc st.viewport.zoom⟩
      ∧ (render S (handleSearchByMap H st).state).radius =
        some ⟨st.viewport.longitude, st.viewport.latitude, H.radiusCalc st.viewport.zoom⟩
      ∧ (handleSearchByMap H st).state.viewport = st.viewport
      ∧ (handleSearchByMap H st).state.popupInfo = st.popupInfo
      ∧ (handleSearchByMap H st).threw = false :=
  ⟨rfl, rfl, rfl, rfl, rfl, rfl⟩

/-- C3: for every identifier `e`, `clickHandler` sets the popup reference to `e`; when the
callback `getAdventureSlug` was provided its only call is `getAdventureSlug(e)`, made once,
and when it was not provided it makes no call; the viewport and the circle overlay are
unchanged. -/
theorem clickHandler_sets_popup_and_notifies (P : Props) (e : Ident) (st : State Val) :
    (clickHandler P e st).state.popupInfo = some e
      ∧ (P.getAdventureSlug = true → (clickHandler P e st).calls = [Call.getAdventureSlug e])
      ∧ (P.getAdventureSlug = false → (clickHandler P e st).calls = [])
      ∧ (clickHandler P e st).state.viewport = st.viewport
      ∧ (clickHandler P e st).state.circleInfo = st.circleInfo
      ∧ (clickHandler P e st).threw = false := by
  refine ⟨rfl, ?_, ?_, rfl, rfl, rfl⟩
  · intro h
    simp [clickHandler, h]
  · intro h
    simp [clickHandler, h]

/-- Instance of C3 with and without the callback, for identifier `3`. -/
theorem clickHandler_sets_popup_and_notifies_witness :
    (clickHandler ⟨⟨none, none, none⟩, "", true⟩ 3 (init ⟨⟨none, none, none⟩, "", true⟩ :
        State Term)).calls = [Call.getAdventureSlug 3]
      ∧ (clickHandler ⟨⟨none, none, none⟩, "", false⟩ 3
          (init ⟨⟨none, none, none⟩, "", false⟩ : State Term)).calls = [] :=
  ⟨(clickHandler_sets_popup_and_notifies ⟨⟨none, none, none⟩, "", true⟩ 3 _).2.1 rfl,
   (clickHandler_sets_popup_and_notifies ⟨⟨none, none, none⟩, "", false⟩ 3 _).2.2.1 rfl⟩

/-- C7: on a viewport change, for every `urlParam` and every new viewport value `v`, the
viewport state becomes `v`; when `urlParam` is `"?search"` or `"?all"` the handler's only
call is `history.push("/adventures")`, and for any other `urlParam` it makes no call. -/
theorem onViewportChange_sets_viewport_and_navigates (P : Props) (v : Viewport)
    (st : State Val) :
    (onViewportChange P v st).state.viewport = v
      ∧ (Call.historyPush "/adventures" ∈ (onViewportChange P v st).calls ↔
          (P.urlParam = "?search" ∨ P.urlParam = "?all"))
      ∧ ((P.urlParam = "?search" ∨ P.urlParam = "?all") →
          (onViewportChange P v st).calls = [Call.historyPush "/adventures"])
      ∧ (¬ (P.urlParam = "?search" ∨ P.urlParam = "?all") →
          (onViewportChange P v st).calls = [])
      ∧ (onViewportChange P v st).threw = false := by
  refine ⟨rfl, ?_, ?_, ?_, rfl⟩
  · by_cases h : P.urlParam = "?search" ∨ P.urlParam = "?all"
    · simp [onViewportChange, h]
    · simp [onViewportChange, h]
  · intro h
    simp [onViewportChange, h]
  · intro h
    simp [onViewportChange, h]

/-- Instance of C7 for `"?search"`, `"?all"` and `"?fullscreen"`. -/
theorem onViewportChange_sets_viewport_and_navigates_witness :
    (onViewportChange ⟨⟨none, none, none⟩, "?search", false⟩
        ⟨some (JSNum.fin 47), some (JSNum.fin (-112)), some (JSNum.fin 8)⟩
        (init ⟨⟨none, none, none⟩, "?search", false⟩ : State Term)).calls =
          [Call.historyPush "/adventures"]
      ∧ (onViewportChange ⟨⟨none, none, none⟩, "?all", false⟩
        ⟨some (JSNum.fin 47), some (JSNum.fin (-112)), some (JSNum.fin 8)⟩
        (init ⟨⟨none, none, none⟩, "?all", false⟩ : State Term)).calls =
          [Call.historyPush "/adventures"]
      ∧ (onViewportChange ⟨⟨none, none, none⟩, "?fullscreen", false⟩
        ⟨some (JSNum.fin 47), some (JSNum.fin (-112)), some (JSNum.fin 8)⟩
        (init ⟨⟨none, none, none⟩, "?fullscreen", false⟩ : State Term)).calls = [] :=
  ⟨(onViewportChange_sets_viewport_and_navigates _ _ _).2.2.1 (Or.inl rfl),
   (onViewportChange_sets_viewport_and_navigates _ _ _).2.2.1 (Or.inr rfl),
   (onViewportChange_sets_viewport_and_navigates _ _ _).2.2.2.1 (by decide)⟩

/-! ## The popup card -/

/-- C5, as stated, fails: from complete initial coords, a viewport change that delivers an
object without latitude, longitude and zoom leaves the viewport without them, since
`onViewportChange` stores whatever it is given. -/
theorem viewport_incomplete_after_change :
    (⟨some (JSNum.fin 45), some (JSNum.fin (-111)), some (JSNum.fin 9)⟩ : Viewport).complete
        = true
      ∧ (run symbolicHelpers
          [⟨⟨⟨some (JSNum.fin 45), some (JSNum.fin (-111)), some (JSNum.fin 9)⟩, "", false⟩,
            ⟨[], none⟩, Op.viewportChange ⟨none, none, none⟩⟩]
          (init ⟨⟨some (JSNum.fin 45), some (JSNum.fin (-111)), some (JSNum.fin 9)⟩, "",
            false⟩)).viewport.complete = false := by
  decide

/-- C5 (amended): if the initial coords have a latitude, a longitude and a zoom, and every
viewport delivered by a viewport change has all three, then after every sequence of
operations (viewport change, search this area, marker click, the effect, arrival of a
drive-time result, a popup update), under any props and store, the viewport has all
three. -/
theorem viewport_complete_invariant (H : Helpers Val) (P : Props) (trace : List (Event Val))
    (hinit : P.coords.complete = true)
    (hchange : ∀ ev ∈ trace, ∀ v, ev.op = Op.viewportChange v → v.complete = true) :
    (run H trace (init P)).viewport.complete = true := by
  have main : ∀ (evs : List (Event Val)) (st : State Val),
      st.viewport.complete = true →
      (∀ ev ∈ evs, ∀ v, ev.op = Op.viewportChange v → v.complete = true) →
      (run H evs st).viewport.complete = true := by
    intro evs
    induction evs with
    | nil =>
      intro st hst _
      exact hst
    | cons ev evs ih =>
      intro st hst hall
      apply ih (step H ev st)
      · exact step_complete H ev st hst (hall ev (List.mem_cons_self ev evs))
      · intro ev2 hmem
        exact hall ev2 (List.mem_cons_of_mem ev hmem)
  exact main trace (init P) hinit hchange

/-- Instance of the amended C5: mount, effect, a drag, a search, a click and the effect
again, under `"?search"` with one adventure in the store. -/
theorem viewport_complete_invariant_witness :
    (run symbolicHelpers
      [⟨⟨⟨some (JSNum.fin 45), some (JSNum.fin (-111)), some (JSNum.fin 9)⟩, "?search", false⟩,
          ⟨[(1, ⟨5, some "46,-110"⟩)], none⟩, Op.runEffect⟩,
       ⟨⟨⟨some (JSNum.fin 45), some (JSNum.fin (-111)), some (JSNum.fin 9)⟩, "?search", false⟩,
          ⟨[(1, ⟨5, some "46,-110"⟩)], none⟩,
          Op.viewportChange ⟨some (JSNum.fin 47), some (JSNum.fin (-112)), some (JSNum.fin 8)⟩⟩,
       ⟨⟨⟨some (JSNum.fin 45), some (JSNum.fin (-111)), some (JSNum.fin 9)⟩, "?search", false⟩,
          ⟨[(1, ⟨5, some "46,-110"⟩)], none⟩, Op.searchThisArea⟩,
       ⟨⟨⟨some (JSNum.fin 45), some (JSNum.fin (-111)), some (JSNum.fin 9)⟩, "?search", false⟩,
          ⟨[(1, ⟨5, some "46,-110"⟩)], none⟩, Op.markerClick 1⟩,
       ⟨⟨⟨some (JSNum.fin 45), some (JSNum.fin (-111)), some (JSNum.fin 9)⟩, "?search", false⟩,
          ⟨[(1, ⟨5, some "46,-110"⟩)], none⟩, Op.runEffect⟩]
      (init ⟨⟨some (JSNum.fin 45), some (JSNum.fin (-111)), some (JSNum.fin 9)⟩, "?search",
        false⟩)).viewport.complete = true :=
  viewport_complete_invariant symbolicHelpers _ _ (by decide) (by
    intro ev hev v hv
    simp only [List.mem_cons, List.mem_singleton, List.not_mem_nil, or_false] at hev
    rcases hev with h | h | h | h | h <;> subst h <;> simp at hv
    subst hv
    decide)

/-! ## The drive-time lookup -/

/-- C6, as stated, fails: with a user location and popup reference `7` both present, but
`7` no key of the mapping, the effect stops at `adventuresObj[7].starting_location` and
makes no lookup. -/
theorem no_lookup_for_popup_outside_mapping :
    (effect symbolicHelpers ⟨⟨none, none, none⟩, "", false⟩
        ⟨[(1, ⟨5, some "46,-110"⟩)], some (Term.location "Bozeman")⟩
        ⟨⟨none, none, none⟩, none, some 7, none⟩).calls = []
      ∧ (effect symbolicHelpers ⟨⟨none, none, none⟩, "", false⟩
        ⟨[(1, ⟨5, some "46,-110"⟩)], some (Term.location "Bozeman")⟩
        ⟨⟨none, none, none⟩, none, some 7, none⟩).threw = true := by
  decide

/-- C6 (amended): the effect makes a drive-time lookup exactly when a user location is
known, the popup reference is truthy and it is a key of the adventures mapping; it is then
the one call `drivetimeMapCalc([convertCoords(adventuresObj[popupInfo].starting_location),
user.location])`; the effect itself leaves `drivetime` unchanged, and when the lookup
resolves with `res` the drivetime state becomes `res`. -/
theorem drivetime_lookup_iff (H : Helpers Val) (P : Props) (S : Store Val) (st : State Val) :
    ((∃ origin destination,
          Call.drivetimeMapCalc origin destination ∈ (effect H P S st).calls) ↔
        ∃ loc e adv, S.location = some loc ∧ st.popupInfo = some e ∧ truthy e = true ∧
          getAdventure S.adventures e = some adv)
      ∧ (∀ loc e adv, S.location = some loc → st.popupInfo = some e → truthy e = true →
          getAdventure S.adventures e = some adv →
          (effect H P S st).calls.filter isLookup =
            [Call.drivetimeMapCalc (H.convertCoords adv.starting_location) loc])
      ∧ (effect H P S st).state.drivetime = st.drivetime
      ∧ (∀ (res : Val) (later : State Val), (drivetimeArrived res later).drivetime = some res) := by
  refine ⟨⟨?_, ?_⟩, ?_, ?_, ?_⟩
  · rintro ⟨origin, destination, hmem⟩
    cases hd : drivetimeBlock H S st with
    | none =>
      rw [effect_of_drivetime_fail H P S st hd] at hmem
      cases hmem
    | some lookups =>
      rcases drivetimeBlock_some H S st lookups hd with hnil | ⟨loc, e, adv, h1, h2, h3, h4, _⟩
      · subst hnil
        rcases effect_calls H P S st [] hd with hc | ⟨v, hc⟩
        · rw [hc] at hmem
          cases hmem
        · rw [hc] at hmem
          simp at hmem
      · exact ⟨loc, e, adv, h1, h2, h3, h4⟩
  · rintro ⟨loc, e, adv, h1, h2, h3, h4⟩
    have hd := drivetimeBlock_lookup H S st loc e adv h1 h2 h3 h4
    refine ⟨H.convertCoords adv.starting_location, loc, ?_⟩
    rcases effect_calls H P S st _ hd with hc | ⟨v, hc⟩
    · rw [hc]
      exact List.mem_singleton.mpr rfl
    · rw [hc]
      simp
  · intro loc e adv h1 h2 h3 h4
    rw [effect_lookups H P S st _ (drivetimeBlock_lookup H S st loc e adv h1 h2 h3 h4)]
    simp [isLookup]
  · rcases effect_state_cases H P S st with h | ⟨s, h⟩
    · rw [h]
    · rw [h]
  · intro res later
    rfl

/-- Instance of the amended C6: a known location and popup `2` of a two-entry mapping give
the one lookup from the converted `"46,-110"` to the user's location. -/
theorem drivetime_lookup_iff_witness :
    (effect symbolicHelpers ⟨⟨none, none, none⟩, "", false⟩
        ⟨[(1, ⟨3, some "45,-111"⟩), (2, ⟨5, some "46,-110"⟩)], some (Term.location "Bozeman")⟩
        ⟨⟨none, none, none⟩, none, some 2, none⟩).calls.filter isLookup =
      [Call.drivetimeMapCalc (Term.convertCoords (some "46,-110")) (Term.location "Bozeman")] :=
  (drivetime_lookup_iff symbolicHelpers ⟨⟨none, none, none⟩, "", false⟩
      ⟨[(1, ⟨3, some "45,-111"⟩), (2, ⟨5, some "46,-110"⟩)], some (Term.location "Bozeman")⟩
      ⟨⟨none, none, none⟩, none, some 2, none⟩).2.1
    (Term.location "Bozeman") 2 ⟨5, some "46,-110"⟩ rfl rfl (by decide) (by decide)

/-! ## Failure at property access -/

end AdventureMap
